import Mathlib

/-!
Verification of the EDA process-orchestration layer (SilicAI).

The definitions below are shallow embeddings of the Python sources:
`OpenROAD_wrapper.py` (path translator), `magic_wrapper.py` (session
protocol), `yosys_wrapper.py` (script builder, batch runner, output
interpreter) and `yo.py` (batch synthesis flow).  Pure string functions
are translated directly; subprocess behaviour is passed in explicitly as
an outcome value (exit code / timeout / exception and the files the tool
wrote), and the filesystem effects are tracked by explicit state records.
-/

/-! ## Python-style string primitives (ASCII semantics) -/

/-- Python `str.lower` on a single ASCII character (`'A'..'Z'` map down,
everything else is unchanged), as used by `windows_path[0].lower()`. -/
def lowerChar (c : Char) : Char :=
  if 'A' ≤ c ∧ c ≤ 'Z' then Char.ofNat (c.toNat + 32) else c

/-- Python `str.upper` on a single ASCII character. -/
def upperChar (c : Char) : Char :=
  if 'a' ≤ c ∧ c ≤ 'z' then Char.ofNat (c.toNat - 32) else c

/-- ASCII lowercase letter test. -/
def isLowerAlpha (c : Char) : Bool :=
  'a' ≤ c && c ≤ 'z'

/-- The whitespace characters removed by Python `str.strip()`. -/
def isPySpace (c : Char) : Bool :=
  c = ' ' || c = '\t' || c = '\n' || c = '\r' || c = '\x0b' || c = '\x0c'

/-- Python `str.strip()` on the character list of a string. -/
def pyStripChars (l : List Char) : List Char :=
  ((l.dropWhile isPySpace).reverse.dropWhile isPySpace).reverse

/-- Python `str.strip()`. -/
def pyStrip (s : String) : String :=
  ⟨pyStripChars s.data⟩

/-- Python `str.rstrip()` on a character list. -/
def pyRstrip (l : List Char) : List Char :=
  (l.reverse.dropWhile isPySpace).reverse

/-- Python substring test `pat in hay` (empty pattern is contained). -/
def hasSub (pat : List Char) : List Char → Bool
  | [] => pat.isPrefixOf []
  | c :: rest => pat.isPrefixOf (c :: rest) || hasSub pat rest

/-- Python `pat in s` on strings. -/
def strContains (s pat : String) : Bool :=
  hasSub pat.data s.data

/-- Python `str.upper()` (ASCII). -/
def pyUpper (s : String) : String :=
  ⟨s.data.map upperChar⟩

/-- Python `str.lower()` (ASCII). -/
def pyLower (s : String) : String :=
  ⟨s.data.map lowerChar⟩

/-- Python `str.split('\n')` on a character list: every newline separates
two (possibly empty) fields. -/
def splitNlChars : List Char → List (List Char)
  | [] => [[]]
  | c :: rest =>
    match splitNlChars rest with
    | [] => [[]]
    | l :: ls => if c = '\n' then [] :: l :: ls else (c :: l) :: ls

/-- Python `str.split('\n')` on strings. -/
def splitNl (s : String) : List String :=
  (splitNlChars s.data).map (⟨·⟩)

/-! ## Path translator (`OpenROAD_wrapper._convert_windows_path_to_wsl`) -/

/-- One step of Python `str.replace(du + ':', rep)`: every (non-overlapping,
left-to-right) occurrence of the two-character pattern `du, ':'` is replaced
by `rep`. -/
def replaceDC (du : Char) (rep : List Char) : List Char → List Char
  | [] => []
  | [c] => [c]
  | c1 :: c2 :: rest =>
    if c1 = du ∧ c2 = ':' then rep ++ replaceDC du rep rest
    else c1 :: replaceDC du rep (c2 :: rest)

/-- Whether the two-character pattern `du, ':'` occurs in the list. -/
def hasDC (du : Char) : List Char → Bool
  | [] => false
  | [_] => false
  | c1 :: c2 :: rest => (c1 = du && c2 = ':') || hasDC du (c2 :: rest)

/-- Python `str.replace('\\', '/')`. -/
def mapSep (l : List Char) : List Char :=
  l.map fun c => if c = '\\' then '/' else c

/-- `OpenROADGUIWrapper._convert_windows_path_to_wsl`: `D:`/`C:` prefixes
are special-cased, any other path goes through the generic rule that treats
its first character as a drive letter.  `none` models the `IndexError`
raised by `windows_path[0]` on an empty path; no other input fails. -/
def convert_windows_path_to_wsl (p : List Char) : Option (List Char) :=
  if ['D', ':'].isPrefixOf p then
    some (mapSep (replaceDC 'D' ['/', 'm', 'n', 't', '/', 'd'] p))
  else if ['C', ':'].isPrefixOf p then
    some (mapSep (replaceDC 'C' ['/', 'm', 'n', 't', '/', 'c'] p))
  else
    match p with
    | [] => none
    | c :: _ =>
      some (mapSep (replaceDC (upperChar (lowerChar c))
        ['/', 'm', 'n', 't', '/', lowerChar c] p))

/-- Modelled from the spec: the source provides only the host-to-foreign
direction (`_convert_windows_path_to_wsl`); the reverse `toNative` of
spec section 4.1 is missing from the repository.  Following the spec's
words, the fixed mount-point prefix `/mnt/<letter>` remaps back to the
drive designator `<LETTER>:` and separators are normalized back to the
native scheme's `\`. -/
def toNative (p : List Char) : Option (List Char) :=
  match p with
  | '/' :: 'm' :: 'n' :: 't' :: '/' :: d :: rest =>
    if isLowerAlpha d then
      some (upperChar d :: ':' :: rest.map fun c => if c = '/' then '\\' else c)
    else none
  | _ => none

/-- The volume designator letters of the native addressing scheme. -/
def supportedDesignators : List Char :=
  ['A', 'B', 'C', 'D', 'E', 'F', 'G', 'H', 'I', 'J', 'K', 'L', 'M',
   'N', 'O', 'P', 'Q', 'R', 'S', 'T', 'U', 'V', 'W', 'X', 'Y', 'Z']

/-! ## Session protocol engine (`magic_wrapper.MagicWrapper`) -/

/-- Outcome of `MagicWrapper.send_command`: the trimmed reply, or one of
the raised errors (`MagicTimeoutError`, the "process is not running"
`MagicWrapperError`, `MagicCommandError` with the stripped stderr line). -/
inductive MagicOutcome where
  | ok (reply : String)
  | timeout
  | notRunning
  | commandError (detail : String)
deriving DecidableEq

/-- The session state visible to `send_command`: `running = true` models
`process is not None and process.poll() is None`. -/
structure MagicSession where
  running : Bool
deriving DecidableEq

/-- `MagicWrapper.send_command`.  The reader thread's behaviour is passed
in as `resp`: `some (out, err)` means both `stdout.readline()` and
`stderr.readline()` returned within the timeout, `none` means the reader
thread was still blocked when `join(timeout)` elapsed, in which case the
code kills the process and raises `MagicTimeoutError`.  A non-empty
stripped stderr line raises `MagicCommandError` without touching the
process; otherwise the stripped stdout line is returned. -/
def send_command (s : MagicSession) (resp : Option (String × String)) :
    MagicOutcome × MagicSession :=
  if s.running = false then (MagicOutcome.notRunning, s)
  else
    match resp with
    | none => (MagicOutcome.timeout, { running := false })
    | some (out, err) =>
      if pyStrip err ≠ "" then (MagicOutcome.commandError (pyStrip err), s)
      else (MagicOutcome.ok (pyStrip out), s)

/-! ## Output interpreter (`yosys_wrapper._parse_yosys_output`) -/

/-- The structured result of `_parse_yosys_output`.  The Python dict
`statistics` can only ever hold the keys `cells`, `wires`, `processes`,
modelled as three optional counters. -/
structure ParsedOutput where
  errors : List String
  warnings : List String
  passes_completed : List String
  stat_cells : Option Nat
  stat_wires : Option Nat
  stat_processes : Option Nat
  modules : List String
  error_type : Option String
  suggestions : List String
deriving DecidableEq

/-- The empty `ParsedOutput` the interpreter starts from. -/
def emptyParsed : ParsedOutput :=
  { errors := [], warnings := [], passes_completed := [],
    stat_cells := none, stat_wires := none, stat_processes := none,
    modules := [], error_type := none, suggestions := [] }

/-- Helper for `re.findall(r'(\d+)', line)[-1]`: the last maximal run of
digits, accumulator `cur` holds the current run reversed. -/
def lastDigitRunAux (cur : List Char) (last : Option (List Char)) :
    List Char → Option (List Char)
  | [] => if cur.isEmpty then last else some cur.reverse
  | c :: rest =>
    if c.isDigit then lastDigitRunAux (c :: cur) last rest
    else lastDigitRunAux [] (if cur.isEmpty then last else some cur.reverse) rest

/-- Decimal value of a digit run. -/
def digitsToNat (l : List Char) : Nat :=
  l.foldl (fun n c => n * 10 + (c.toNat - 48)) 0

/-- `int(re.findall(r'(\d+)', line)[-1])`: `none` models the `IndexError`
that the source catches when the line holds no digits. -/
def lastDigitRun (l : List Char) : Option Nat :=
  (lastDigitRunAux [] none l).map digitsToNat

/-- Python `\w` (ASCII part, the module names in play are ASCII). -/
def isWordChar (c : Char) : Bool :=
  c.isAlphanum || c = '_'

/-- `re.search(r'module `\\(\w+)', line)`: the first position where the
literal text then at least one word character match; the greedy capture. -/
def findModuleName : List Char → Option (List Char)
  | [] => none
  | c :: rest =>
    if ['m', 'o', 'd', 'u', 'l', 'e', ' ', '`', '\\'].isPrefixOf (c :: rest) then
      match ((c :: rest).drop 9).takeWhile isWordChar with
      | [] => findModuleName rest
      | nm => some nm
    else findModuleName rest

/-- One iteration of the `for line in lines` loop of
`_parse_yosys_output`: strip, skip empties, then the if/elif
classification chain of the source. -/
def parseLine (p : ParsedOutput) (raw : String) : ParsedOutput :=
  let line := pyStrip raw
  if line = "" then p
  else if strContains (pyUpper line) "ERROR:" || strContains (pyUpper line) "FATAL:"
      || strContains (pyUpper line) "ABORT" then
    let p1 := { p with errors := p.errors ++ [line] }
    if strContains (pyLower line) "not found" then
      { p1 with error_type := some "MODULE_NOT_FOUND",
                suggestions := p1.suggestions ++
                  ["Check module name spelling",
                   "Ensure module is defined in the Verilog files"] }
    else if strContains (pyLower line) "syntax error" then
      { p1 with error_type := some "SYNTAX_ERROR",
                suggestions := p1.suggestions ++
                  ["Check Verilog syntax",
                   "Look for missing semicolons or parentheses"] }
    else p1
  else if strContains (pyUpper line) "WARNING:" || strContains (pyUpper line) "WARN:" then
    { p with warnings := p.warnings ++ [line] }
  else if strContains (pyLower line) "executing" && strContains (pyLower line) "pass" then
    { p with passes_completed := p.passes_completed ++ [line] }
  else if strContains (pyLower line) "number of" then
    if strContains line "cells:" then
      match lastDigitRun line.data with
      | some n => { p with stat_cells := some n }
      | none => p
    else if strContains line "wires:" then
      match lastDigitRun line.data with
      | some n => { p with stat_wires := some n }
      | none => p
    else if strContains line "processes:" then
      match lastDigitRun line.data with
      | some n => { p with stat_processes := some n }
      | none => p
    else p
  else if strContains (pyLower line) "generating rtlil representation for module" then
    match findModuleName line.data with
    | some nm => { p with modules := p.modules ++ [⟨nm⟩] }
    | none => p
  else p

/-- `_parse_yosys_output(stdout, stderr)`: single pass over the lines of
`stdout + "\n" + stderr`. -/
def parse_yosys_output (stdout stderr : String) : ParsedOutput :=
  (splitNl (stdout ++ "\n" ++ stderr)).foldl parseLine emptyParsed

/-- A stripped line that the classifier chain would reclassify — used to
state when a later line overrides `MODULE_NOT_FOUND`: an error-marker
line containing "syntax error" but not "not found". -/
def reclassifiesToSyntax (raw : String) : Bool :=
  let line := pyStrip raw
  (line ≠ "") &&
  (strContains (pyUpper line) "ERROR:" || strContains (pyUpper line) "FATAL:"
    || strContains (pyUpper line) "ABORT") &&
  !(strContains (pyLower line) "not found") &&
  strContains (pyLower line) "syntax error"

/-! ## Batch invocation engine (`yosys_wrapper._run_yosys_command`) -/

/-- Behaviour of one `subprocess.run` call on the external tool:
it completed with an exit code and captured streams, it exceeded the
wall-clock budget (`subprocess.TimeoutExpired`), or it raised some other
exception (missing binary, permission denied, ...). -/
inductive RunOutcome where
  | completed (rc : Int) (stdout stderr : String)
  | timedOut
  | raised
deriving DecidableEq

/-- The dict `_run_yosys_command` returns on completion. -/
structure RunDict where
  success : Bool
  returncode : Int
  stdout : String
  stderr : String
  parsed : ParsedOutput
deriving DecidableEq

/-- `_run_yosys_command`: first component is the returned dict or the
`error_type` tag of the raised `YosysError`; the second component is
whether the scratch script file still exists afterwards.  The script file
is written before the run, and the inner `try/finally` unlinks it on
completion, on `TimeoutExpired` and on any other exception from the run
(the exceptions are then re-raised as `YosysError`). -/
def run_yosys_command (o : RunOutcome) : Except String RunDict × Bool :=
  match o with
  | RunOutcome.completed rc out err =>
    (Except.ok { success := rc == 0, returncode := rc, stdout := out, stderr := err,
                 parsed := parse_yosys_output out err }, false)
  | RunOutcome.timedOut => (Except.error "YOSYS_TIMEOUT", false)
  | RunOutcome.raised => (Except.error "YOSYS_EXECUTION_ERROR", false)

/-! ## Script builder (`yosys_wrapper._build_optimized_synthesis_script`) -/

/-- `SynthesisTarget` of `yosys_wrapper.py`. -/
inductive SynthesisTarget where
  | generic
  | ice40
  | ecp5
  | xilinx
  | intel
deriving DecidableEq

/-- The characters that make `_normalize_path_for_yosys` quote a path. -/
def yosysSpecialChars : List Char :=
  [' ', '&', '(', ')', '[', ']', '\x7b', '\x7d', ';', '|', '<', '>', '?', '*']

/-- `_normalize_path_for_yosys` on an already-resolved path string:
on the win32 platform backslashes become slashes, and a path holding any
special character is wrapped in double quotes. -/
def normalize_path_for_yosys (winPlatform : Bool) (p : String) : String :=
  let s : String := if winPlatform then ⟨mapSep p.data⟩ else p
  if s.data.any (fun c => yosysSpecialChars.contains c) then "\"" ++ s ++ "\"" else s

/-- `_build_optimized_synthesis_script` as the list of script lines the
source joins with newlines.  `files` are the validated input paths,
`defines` models the optional dict as an insertion-ordered association
list (`none` and the empty list are both falsy in the source), `now` is
the `time.strftime('%Y-%m-%d %H:%M:%S')` reading taken while rendering. -/
def build_optimized_synthesis_script (winPlatform : Bool) (files : List String)
    (top : String) (target : SynthesisTarget) (outputPath : String)
    (defines : Option (List (String × String))) (showStats : Bool)
    (circuitType : String) (now : String) : List String :=
  ["# Optimized Yosys synthesis script for module '" ++ top ++ "'",
   "# Circuit type: " ++ circuitType,
   "# Generated by YosysWrapper at " ++ now,
   ""] ++
  (match defines with
   | some ds =>
     if ds.isEmpty then []
     else ["# Verilog defines"] ++
       ds.map (fun kv => "# Define " ++ kv.1 ++ "=" ++ kv.2) ++ [""]
   | none => []) ++
  (["# Reading Verilog files"] ++
   files.map (fun f => "read_verilog " ++ normalize_path_for_yosys winPlatform f) ++
   [""]) ++
  ["# Design hierarchy and basic synthesis",
   "hierarchy -check -top " ++ top,
   "proc", "opt", "memory", "opt"] ++
  (match target with
   | SynthesisTarget.ice40 => ["# iCE40-specific synthesis", "synth_ice40 -top " ++ top]
   | SynthesisTarget.ecp5 => ["# ECP5-specific synthesis", "synth_ecp5 -top " ++ top]
   | SynthesisTarget.xilinx => ["# Xilinx-specific synthesis", "synth_xilinx -top " ++ top]
   | _ =>
     ["# Generic synthesis flow", "fsm", "opt", "techmap", "opt"] ++
     (if circuitType = "combinational" then
        ["# Optimized ABC for combinational circuits (eliminates ABC warning)",
         "abc -g AND,NAND,OR,NOR,XOR,XNOR,MUX -script +fraig_sweep;fraig;refactor;balance"]
      else
        ["# Standard ABC optimization for sequential circuits", "abc"]) ++
     ["clean"]) ++
  (if showStats then ["", "# Show design statistics", "stat"] else []) ++
  ["", "# Write output",
   "write_verilog " ++ normalize_path_for_yosys winPlatform outputPath]

/-- The rendered script text: the lines joined with newlines. -/
def build_script_text (winPlatform : Bool) (files : List String) (top : String)
    (target : SynthesisTarget) (outputPath : String)
    (defines : Option (List (String × String))) (showStats : Bool)
    (circuitType : String) (now : String) : String :=
  String.intercalate "\n" (build_optimized_synthesis_script winPlatform files top
    target outputPath defines showStats circuitType now)

/-! ## `yosys_wrapper.synthesize_design` -/

/-- The fields of `SynthesisResult` (of `yosys_wrapper.py`) the claims
are about. -/
structure YwSynthesisResult where
  success : Bool
  stage : String
  output_file : Option String
  netlist_content : String
deriving DecidableEq

/-- `YosysWrapper.synthesize_design`, with subprocess behaviour and disk
state passed explicitly: `top` is the module name after
`_clean_user_input`, `validationOk` is whether `_validate_verilog_files`
accepted the inputs (its `YosysError`s propagate), `o` the subprocess
behaviour, `outputExistsAfter`/`diskContent` whether and with what
content the expected output artifact is on disk after the run.  `success`
of the result is the `success` of the run dict, which is
`returncode == 0` alone; the artifact existence only gates reading the
netlist back. -/
def synthesize_design (top outPath : String) (validationOk : Bool)
    (o : RunOutcome) (outputExistsAfter : Bool) (diskContent : String) :
    Except String YwSynthesisResult :=
  if top = "" then Except.error "INVALID_INPUT"
  else if validationOk = false then Except.error "FILE_NOT_FOUND"
  else
    match run_yosys_command o with
    | (Except.error e, _) => Except.error e
    | (Except.ok d, _) =>
      let netlist := if d.success && outputExistsAfter then diskContent else ""
      Except.ok
        { success := d.success,
          stage := if d.success then "synthesis_complete" else "synthesis_failed",
          output_file := if d.success then some outPath else none,
          netlist_content := netlist }

/-- The success flag of a `synthesize_design` call that returned a result. -/
def ywSuccess (r : Except String YwSynthesisResult) : Option Bool :=
  r.toOption.map (fun x => x.success)

/-! ## `yo.py` postprocessing (`_postprocess_for_openroad`) -/

def dropUntilCloseAttr : List Char → Option (List Char)
  | [] => none
  | c :: rest =>
    if c = '*' ∧ rest.head? = some ')' then some rest.tail
    else dropUntilCloseAttr rest

def stripAttrs (l : List Char) : List Char :=
  match l with
  | [] => []
  | c1 :: rest =>
    if c1 = '(' ∧ rest.head? = some '*' then
      match h2 : dropUntilCloseAttr rest.tail with
      | some rest2 => stripAttrs rest2
      | none => c1 :: stripAttrs rest
    else c1 :: stripAttrs rest
termination_by l.length
decreasing_by
  · have hlen : ∀ l r, dropUntilCloseAttr l = some r → r.length < l.length := by
      intro l
      induction l with
      | nil => intro r h; simp [dropUntilCloseAttr] at h
      | cons c l ih =>
        intro r h
        rw [dropUntilCloseAttr] at h
        by_cases hc : c = '*' ∧ l.head? = some ')'
        · rw [if_pos hc] at h
          cases h
          have : l.tail.length ≤ l.length := by cases l <;> simp
          simp only [List.length_cons]
          omega
        · rw [if_neg hc] at h
          have := ih r h
          simp only [List.length_cons]
          omega
    have h3 := hlen rest.tail rest2 h2
    have : rest.tail.length ≤ rest.length := by cases rest <;> simp
    simp only [List.length_cons]
    omega
  · simp only [List.length_cons]; omega
  · simp only [List.length_cons]; omega

def cutLineComment : List Char → List Char
  | [] => []
  | c :: rest =>
    if c = '/' ∧ rest.head? = some '/' then []
    else c :: cutLineComment rest

def afterLastNlInRun : List Char → Option (List Char)
  | [] => none
  | c :: rest =>
    if isPySpace c then
      match afterLastNlInRun rest with
      | some r => some r
      | none => if c = '\n' then some rest else none
    else none

def collapseBlanks (l : List Char) : List Char :=
  match l with
  | [] => []
  | c :: rest =>
    if c = '\n' then
      match h : afterLastNlInRun rest with
      | some r => '\n' :: '\n' :: collapseBlanks r
      | none => c :: collapseBlanks rest
    else c :: collapseBlanks rest
termination_by l.length
decreasing_by
  · have hlen : ∀ l r, afterLastNlInRun l = some r → r.length < l.length := by
      intro l
      induction l with
      | nil => intro r h; simp [afterLastNlInRun] at h
      | cons c l ih =>
        intro r h
        rw [afterLastNlInRun] at h
        by_cases hc : isPySpace c = true
        · rw [if_pos hc] at h
          cases hrec : afterLastNlInRun l with
          | some r0 =>
            rw [hrec] at h
            have h2 : some r0 = some r := h
            cases h2
            have := ih _ hrec
            simp only [List.length_cons]
            omega
          | none =>
            rw [hrec] at h
            have h2 : (if c = '\n' then some l else none) = some r := h
            by_cases hn : c = '\n'
            · rw [if_pos hn] at h2
              cases h2
              simp
            · rw [if_neg hn] at h2
              exact absurd h2 (by simp)
        · rw [if_neg hc] at h
          exact absurd h (by simp)
    have := hlen rest r h
    simp only [List.length_cons]
    omega
  · simp only [List.length_cons]; omega
  · simp only [List.length_cons]; omega

/-- `re.sub(r'//.*?$', '', content, flags=re.MULTILINE)`: cut every line
at its first `//`. -/
def removeLineComments (l : List Char) : List Char :=
  List.intercalate ['\n'] ((splitNlChars l).map cutLineComment)

/-- Python `str.splitlines()` restricted to `\n` boundaries (the content
in play is produced by the tool with `\n` line ends): like
`split('\n')` but an empty string gives no lines and a trailing newline
adds no trailing empty line. -/
def pySplitlines (l : List Char) : List (List Char) :=
  if l = [] then []
  else if l.getLast? = some '\n' then (splitNlChars l).dropLast
  else splitNlChars l

/-- `YosysWrapper._postprocess_for_openroad` (`yo.py`): strip `(* ... *)`
attribute blocks, cut `//` line comments, collapse blank-line runs to one
blank line, right-trim every line, and end with exactly one newline. -/
def yoPostprocess (s : String) : String :=
  let c1 := stripAttrs s.data
  let c2 := removeLineComments c1
  let c3 := collapseBlanks c2
  let c4 := List.intercalate ['\n'] ((pySplitlines c3).map pyRstrip)
  ⟨pyRstrip c4 ++ ['\n']⟩

/-! ## `yo.py` synthesis flow (`YosysWrapper.synthesize` of `yo.py`) -/

/-- The on-disk state `yo.py`'s `synthesize` touches: the content (if the
file exists) at the output netlist path `<top>_synthesized.v`, the
content and name of the timestamped backup, and whether the scratch
script file `synth_<time>.ys` exists. -/
structure YoFS where
  outputContent : Option String
  backupContent : Option String
  backupPath : Option String
  scriptExists : Bool
deriving DecidableEq

/-- The fields of `yo.py`'s `SynthesisResult` the claims are about. -/
structure YoResult where
  success : Bool
  stage : String
  output_file : Option String
  netlist_content : String
deriving DecidableEq

/-- Externally determined behaviour of one `yo.py` `synthesize` call:
whether `find_verilog_files` succeeds (it raises `FileNotFoundError`
otherwise), the `int(time.time())` reading, the subprocess behaviour,
the content the tool wrote at the output path (`none` when the tool
produced no file), and whether `_postprocess_for_openroad` and the
fallback `read_text` succeed. -/
structure YoEnv where
  findFilesOk : Bool
  now : Nat
  run : RunOutcome
  toolWrites : Option String
  postprocOk : Bool
  readOk : Bool
deriving DecidableEq

/-- The output netlist file name `f"{top_module}_synthesized.v"`. -/
def yoOutputFileName (top : String) : String :=
  top ++ "_synthesized.v"

/-- The backup name produced by
`output_file.with_suffix(f".backup_{int(time.time())}.v")`: the `.v`
suffix is replaced, giving `<top>_synthesized.backup_<time>.v`. -/
def yoBackupName (top : String) (t : Nat) : String :=
  top ++ "_synthesized.backup_" ++ toString t ++ ".v"

/-- `YosysWrapper.synthesize` of `yo.py`.  The whole body runs in one
`try` whose `except Exception` handler returns a `stage = "error"`
result; `find_verilog_files` raising lands there before anything is
written.  Otherwise an existing output file is renamed to the timestamped
backup, the script file is written, and the subprocess runs: on
`TimeoutExpired` or any other exception control jumps to the handler
without reaching the `script_file.unlink` that follows the run, so the
scratch file stays behind; on completion the script is unlinked and
`returncode == 0 and output_file.exists()` decides success, where a
failing postprocess step is caught and still returns a successful
result. -/
def yo_synthesize (top : String) (e : YoEnv) (fs0 : YoFS) : YoResult × YoFS :=
  if e.findFilesOk = false then
    ({ success := false, stage := "error", output_file := none, netlist_content := "" }, fs0)
  else
    let fs1 :=
      match fs0.outputContent with
      | some c =>
        { fs0 with outputContent := none, backupContent := some c,
                   backupPath := some (yoBackupName top e.now) }
      | none => fs0
    let fs2 := { fs1 with scriptExists := true }
    match e.run with
    | RunOutcome.timedOut =>
      ({ success := false, stage := "error", output_file := none, netlist_content := "" }, fs2)
    | RunOutcome.raised =>
      ({ success := false, stage := "error", output_file := none, netlist_content := "" }, fs2)
    | RunOutcome.completed rc _ _ =>
      let fs3 :=
        match e.toolWrites with
        | some c => { fs2 with outputContent := some c }
        | none => fs2
      let fs4 := { fs3 with scriptExists := false }
      match fs4.outputContent with
      | some written =>
        if rc = 0 then
          if e.postprocOk then
            let newContent := yoPostprocess written
            ({ success := true, stage := "completed",
               output_file := some (yoOutputFileName top),
               netlist_content := newContent },
             { fs4 with outputContent := some newContent })
          else
            ({ success := true, stage := "completed",
               output_file := some (yoOutputFileName top),
               netlist_content := if e.readOk then written else "" }, fs4)
        else
          ({ success := false, stage := "failed", output_file := none,
             netlist_content := "" }, fs4)
      | none =>
        ({ success := false, stage := "failed", output_file := none,
           netlist_content := "" }, fs4)

/-! ## Sample states used by concrete instances of the theorems below -/

/-- A disk state with no pre-existing files. -/
def fsEmpty : YoFS :=
  { outputContent := none, backupContent := none, backupPath := none, scriptExists := false }

/-- A disk state where the output netlist already exists. -/
def fsWithOutput : YoFS :=
  { outputContent := some "module old; endmodule", backupContent := none,
    backupPath := none, scriptExists := false }

/-- A run where the tool exits 0 and writes the expected artifact. -/
def envCompleted : YoEnv :=
  { findFilesOk := true, now := 1700000000,
    run := RunOutcome.completed 0 "ok" "", toolWrites := some "module m; endmodule",
    postprocOk := true, readOk := true }

/-- A run where the subprocess exceeds its wall-clock budget. -/
def envTimedOut : YoEnv :=
  { findFilesOk := true, now := 1700000000,
    run := RunOutcome.timedOut, toolWrites := none,
    postprocOk := true, readOk := true }

/-- A run where the tool succeeds but `_postprocess_for_openroad` raises. -/
def envPostprocFail : YoEnv :=
  { findFilesOk := true, now := 1700000000,
    run := RunOutcome.completed 0 "ok" "", toolWrites := some "module m; endmodule",
    postprocOk := false, readOk := true }

/-- The error line of the spec's `EntityNotFound` scenario. -/
def notFoundLine : String :=
  "ERROR: module 'foo' not found"

/-! ## Theorems: path translator (claims C3 and C6) -/

theorem replaceDC_no_occ (du : Char) (rep : List Char) :
    ∀ l, hasDC du l = false → replaceDC du rep l = l := by
  intro l
  induction l using hasDC.induct du with
  | case1 => intro _; rfl
  | case2 c => intro _; rfl
  | case3 c1 c2 rest ih =>
    intro h
    simp only [hasDC, Bool.or_eq_false_iff, Bool.and_eq_false_iff] at h
    simp only [replaceDC]
    rw [if_neg, ih h.2]
    rintro ⟨rfl, rfl⟩
    rcases h.1 with h1 | h1 <;> simp at h1

theorem replaceDC_match (du : Char) (rep S : List Char) :
    replaceDC du rep (du :: ':' :: S) = rep ++ replaceDC du rep S := by
  simp [replaceDC]

theorem lowerChar_ne_backslash (c : Char) (h : isLowerAlpha (lowerChar c) = true) :
    lowerChar c ≠ '\\' := by
  intro he
  rw [he] at h
  simp [isLowerAlpha] at h

theorem mapSep_rep (dl : Char) (h : dl ≠ '\\') :
    mapSep ['/', 'm', 'n', 't', '/', dl] = ['/', 'm', 'n', 't', '/', dl] := by
  simp [mapSep, h]

theorem mapBack_mapSep (S : List Char) (hsl : '/' ∉ S) :
    (mapSep S).map (fun c => if c = '/' then '\\' else c) = S := by
  induction S with
  | nil => rfl
  | cons c rest ih =>
    simp only [List.mem_cons, not_or] at hsl
    have hstep : mapSep (c :: rest) = (if c = '\\' then '/' else c) :: mapSep rest := rfl
    rw [hstep, List.map_cons, ih hsl.2]
    congr 1
    by_cases hc : c = '\\'
    · simp [hc]
    · simp only [if_neg hc]
      rw [if_neg]
      exact fun h => hsl.1 h.symm

theorem convert_eq_core (du : Char) (S : List Char)
    (hcomp : upperChar (lowerChar du) = du) :
    convert_windows_path_to_wsl (du :: ':' :: S) =
      some (mapSep (replaceDC du ['/', 'm', 'n', 't', '/', lowerChar du] (du :: ':' :: S))) := by
  by_cases hD : du = 'D'
  · subst hD
    rw [show lowerChar 'D' = 'd' from rfl]
    simp [convert_windows_path_to_wsl, List.isPrefixOf]
  · by_cases hC : du = 'C'
    · subst hC
      rw [show lowerChar 'C' = 'c' from rfl]
      simp [convert_windows_path_to_wsl, List.isPrefixOf]
    · rw [convert_windows_path_to_wsl]
      rw [if_neg, if_neg]
      · rw [hcomp]
      · simp only [List.isPrefixOf, Bool.and_eq_true, beq_iff_eq]
        rintro ⟨h, -⟩
        exact hC h.symm
      · simp only [List.isPrefixOf, Bool.and_eq_true, beq_iff_eq]
        rintro ⟨h, -⟩
        exact hD h.symm

theorem convert_roundtrip_core (du : Char) (S : List Char)
    (hcomp : upperChar (lowerChar du) = du)
    (hla : isLowerAlpha (lowerChar du) = true)
    (hocc : hasDC du S = false)
    (hsl : '/' ∉ S) :
    (convert_windows_path_to_wsl (du :: ':' :: S)).bind toNative =
      some (du :: ':' :: S) := by
  rw [convert_eq_core du S hcomp]
  rw [replaceDC_match, replaceDC_no_occ du _ S hocc]
  rw [show mapSep (['/', 'm', 'n', 't', '/', lowerChar du] ++ S) =
        mapSep ['/', 'm', 'n', 't', '/', lowerChar du] ++ mapSep S from List.map_append _ _ _]
  rw [mapSep_rep (lowerChar du) (lowerChar_ne_backslash du hla)]
  show toNative ('/' :: 'm' :: 'n' :: 't' :: '/' :: lowerChar du :: mapSep S) = _
  rw [toNative]
  rw [if_pos hla, mapBack_mapSep S hsl, hcomp]

/-- C3: as stated — `toNative(toForeign(V+S)) == V+S` for every supported
volume designator `V` and every relative suffix `S` — the claim fails:
for `V = "D:"` and the suffix `"/a"` (a forward-slash separator, legal in
the native scheme) the round trip returns `D:\a`, not `D:/a`, because
`toForeign` collapses both separator kinds into `/`. -/
theorem c3_counterexample :
    (convert_windows_path_to_wsl ("D:/a".data)).bind toNative ≠ some ("D:/a".data) := by
  decide

/-- C3 (amended): the round trip `toNative (toForeign (V+S)) = V+S` holds
for every supported designator letter and every suffix that uses only
backslash separators and does not itself contain the designator-colon
pattern (which `str.replace` would also rewrite).  `toNative` is modelled
from the spec, the source having no foreign-to-native direction. -/
theorem c3_roundtrip (d : Char) (S : List Char)
    (hd : d ∈ supportedDesignators)
    (hsl : '/' ∉ S) (hocc : hasDC d S = false) :
    (convert_windows_path_to_wsl (d :: ':' :: S)).bind toNative =
      some (d :: ':' :: S) := by
  have hfacts : ∀ x ∈ supportedDesignators,
      upperChar (lowerChar x) = x ∧ isLowerAlpha (lowerChar x) = true := by decide
  obtain ⟨h1, h2⟩ := hfacts d hd
  exact convert_roundtrip_core d S h1 h2 hocc hsl

/-- C3 witness: the round trip at `D:\sub\f.v`. -/
theorem c3_roundtrip_witness :
    'D' ∈ supportedDesignators ∧ '/' ∉ "\\sub\\f.v".data ∧
    hasDC 'D' "\\sub\\f.v".data = false ∧
    (convert_windows_path_to_wsl ('D' :: ':' :: "\\sub\\f.v".data)).bind toNative =
      some ('D' :: ':' :: "\\sub\\f.v".data) :=
  ⟨by decide, by decide, by decide,
   c3_roundtrip 'D' "\\sub\\f.v".data (by decide) (by decide) (by decide)⟩

/-- C6: as stated the claim fails: the translation never raises an
`UnsupportedPath` error; a path with the unsupported volume designator
`1:` is silently rewritten to `/mnt/1/a` by the generic first-character
rule. -/
theorem c6_counterexample :
    convert_windows_path_to_wsl ("1:\\a".data) = some ("/mnt/1/a".data) := by
  decide

/-- C6 (amended): the host-to-foreign translation is total on non-empty
inputs — unknown or missing volume designators never produce an error,
the path is rewritten (or passed through) by the generic rule; only the
empty path fails, with an `IndexError` rather than `UnsupportedPath`. -/
theorem c6_translation_total (p : List Char) (h : p ≠ []) :
    (convert_windows_path_to_wsl p).isSome = true := by
  rcases p with _ | ⟨c, rest⟩
  · exact absurd rfl h
  · rw [convert_windows_path_to_wsl]
    split_ifs <;> simp

/-- C6 witness: a designator-free relative path is silently translated. -/
theorem c6_translation_total_witness :
    ("relative\\path".data ≠ ([] : List Char)) ∧
    (convert_windows_path_to_wsl ("relative\\path".data)).isSome = true :=
  ⟨by decide, c6_translation_total "relative\\path".data (by decide)⟩

/-! ## Theorems: session protocol (claims C2 and C8) -/

/-- C2: on a running session, a command for which no reply line arrives
within the timeout fails with `Timeout` and kills the process (the
session is `Dead`), and every subsequent `send` on that session fails
immediately with the "process is not running" error, whatever the
process would have answered. -/
theorem c2_timeout_transitions_to_dead (s : MagicSession)
    (resp2 : Option (String × String)) (h : s.running = true) :
    (send_command s none).1 = MagicOutcome.timeout ∧
    (send_command s none).2.running = false ∧
    (send_command (send_command s none).2 resp2).1 = MagicOutcome.notRunning := by
  simp [send_command, h]

/-- C2 witness: a concrete running session timing out, then re-sent to. -/
theorem c2_timeout_witness :
    (MagicSession.mk true).running = true ∧
    ((send_command (MagicSession.mk true) none).1 = MagicOutcome.timeout ∧
     (send_command (MagicSession.mk true) none).2.running = false ∧
     (send_command (send_command (MagicSession.mk true) none).2
        (some ("reply", ""))).1 = MagicOutcome.notRunning) :=
  ⟨by decide, c2_timeout_transitions_to_dead (MagicSession.mk true)
    (some ("reply", "")) (by decide)⟩

/-- C8: a send whose stderr line is non-empty after stripping fails with
`MagicCommandError` carrying that stripped line, and the session state is
unchanged — the process is not terminated and remains usable. -/
theorem c8_tool_reported_error (s : MagicSession) (out err : String)
    (h : s.running = true) (herr : pyStrip err ≠ "") :
    (send_command s (some (out, err))).1 = MagicOutcome.commandError (pyStrip err) ∧
    (send_command s (some (out, err))).2 = s := by
  simp [send_command, h, herr]

/-- C8 witness: a concrete rejected command on a live session. -/
theorem c8_tool_reported_error_witness :
    (MagicSession.mk true).running = true ∧ pyStrip " bad box \n" ≠ "" ∧
    ((send_command (MagicSession.mk true) (some ("", " bad box \n"))).1 =
       MagicOutcome.commandError (pyStrip " bad box \n") ∧
     (send_command (MagicSession.mk true) (some ("", " bad box \n"))).2 =
       MagicSession.mk true) :=
  ⟨by decide, by decide,
   c8_tool_reported_error (MagicSession.mk true) "" " bad box \n" (by decide) (by decide)⟩

/-! ## Theorems: output interpreter (claim C7) -/

theorem parseLine_preserves_found (l0 : String) (p : ParsedOutput) (raw : String)
    (h1 : l0 ∈ p.errors) (h2 : p.suggestions ≠ []) :
    l0 ∈ (parseLine p raw).errors ∧ (parseLine p raw).suggestions ≠ [] := by
  unfold parseLine
  dsimp only
  constructor <;> (repeat' split) <;> simp_all [List.mem_append]

theorem parseLine_preserves_kind (p : ParsedOutput) (raw : String)
    (hk : p.error_type = some "MODULE_NOT_FOUND")
    (hr : reclassifiesToSyntax raw = false) :
    (parseLine p raw).error_type = some "MODULE_NOT_FOUND" := by
  unfold parseLine
  unfold reclassifiesToSyntax at hr
  dsimp only
  dsimp only at hr
  repeat' split
  all_goals simp_all

theorem foldl_preserves_found (l0 : String) (L : List String) :
    ∀ p : ParsedOutput, l0 ∈ p.errors → p.suggestions ≠ [] →
      l0 ∈ (L.foldl parseLine p).errors ∧ (L.foldl parseLine p).suggestions ≠ [] := by
  induction L with
  | nil => intro p h1 h2; exact ⟨h1, h2⟩
  | cons raw L ih =>
    intro p h1 h2
    rw [List.foldl_cons]
    obtain ⟨g1, g2⟩ := parseLine_preserves_found l0 p raw h1 h2
    exact ih (parseLine p raw) g1 g2

theorem foldl_preserves_kind (L : List String) :
    ∀ p : ParsedOutput, p.error_type = some "MODULE_NOT_FOUND" →
      (∀ raw ∈ L, reclassifiesToSyntax raw = false) →
      (L.foldl parseLine p).error_type = some "MODULE_NOT_FOUND" := by
  induction L with
  | nil => intro p hk _; exact hk
  | cons raw L ih =>
    intro p hk hL
    rw [List.foldl_cons]
    exact ih (parseLine p raw)
      (parseLine_preserves_kind p raw hk (hL raw (List.mem_cons_self raw L)))
      (fun r hr => hL r (List.mem_cons_of_mem raw hr))

theorem parseLine_not_found (p : ParsedOutput) :
    parseLine p notFoundLine =
      { p with errors := p.errors ++ [notFoundLine],
               error_type := some "MODULE_NOT_FOUND",
               suggestions := p.suggestions ++
                 ["Check module name spelling",
                  "Ensure module is defined in the Verilog files"] } := rfl

/-- C7 (amended): whenever the combined output splits into lines with
`ERROR: module 'foo' not found` among them, that line is appended to the
errors and the remediation list becomes non-empty; the classified kind is
`MODULE_NOT_FOUND` provided no later line is an error line carrying
"syntax error" without "not found" (the classifier's last matching error
line wins); and interpretation is a total function of the text. -/
theorem c7_entity_not_found (stdout stderr : String) (pre post : List String)
    (hsplit : splitNl (stdout ++ "\n" ++ stderr) = pre ++ notFoundLine :: post)
    (hpost : ∀ raw ∈ post, reclassifiesToSyntax raw = false) :
    notFoundLine ∈ (parse_yosys_output stdout stderr).errors ∧
    (parse_yosys_output stdout stderr).suggestions ≠ [] ∧
    (parse_yosys_output stdout stderr).error_type = some "MODULE_NOT_FOUND" := by
  unfold parse_yosys_output
  rw [hsplit, List.foldl_append, List.foldl_cons]
  generalize List.foldl parseLine emptyParsed pre = p0
  rw [parseLine_not_found p0]
  obtain ⟨hA, hB⟩ := foldl_preserves_found notFoundLine post
    ({ p0 with
        errors := p0.errors ++ [notFoundLine],
        error_type := some "MODULE_NOT_FOUND",
        suggestions := p0.suggestions ++
          ["Check module name spelling",
           "Ensure module is defined in the Verilog files"] })
    (by simp) (by simp)
  exact ⟨hA, hB, foldl_preserves_kind post _ (by simp) hpost⟩

/-- C7 witness: the spec's scenario, the raw output being exactly the
error line. -/
theorem c7_entity_not_found_witness :
    splitNl (notFoundLine ++ "\n" ++ "") = [] ++ notFoundLine :: [""] ∧
    (∀ raw ∈ [""], reclassifiesToSyntax raw = false) ∧
    (notFoundLine ∈ (parse_yosys_output notFoundLine "").errors ∧
     (parse_yosys_output notFoundLine "").suggestions ≠ [] ∧
     (parse_yosys_output notFoundLine "").error_type = some "MODULE_NOT_FOUND") :=
  ⟨by decide, by decide,
   c7_entity_not_found notFoundLine "" [] [""] (by decide) (by decide)⟩

/-- C7: as stated the claim fails: an output that contains the line
`ERROR: module 'foo' not found` but a later `ERROR: syntax error` line is
classified `SYNTAX_ERROR`, not `MODULE_NOT_FOUND` — the last matching
error line wins. -/
theorem c7_counterexample :
    notFoundLine ∈ splitNl ((notFoundLine ++ "\nERROR: syntax error") ++ "\n" ++ "") ∧
    (parse_yosys_output (notFoundLine ++ "\nERROR: syntax error") "").error_type =
      some "SYNTAX_ERROR" := by
  decide

/-! ## Theorems: script rendering (claim C4) -/

/-- C4: as stated determinism fails: the builder embeds the wall-clock
reading `time.strftime(...)` in a header comment, so the same request and
circuit kind rendered at two different moments yield different text. -/
theorem c4_counterexample :
    build_script_text false ["a.v"] "top" SynthesisTarget.generic "out.v" none true
        "combinational" "2024-01-01 00:00:00" ≠
      build_script_text false ["a.v"] "top" SynthesisTarget.generic "out.v" none true
        "combinational" "2024-01-01 00:00:01" := by
  decide

/-- C4 (amended): script rendering is deterministic apart from the
generation-timestamp header (line index 2): for the same request and the
same detected circuit kind, every other rendered line coincides between
any two runs. -/
theorem c4_deterministic_modulo_timestamp (winPlatform : Bool) (files : List String)
    (top : String) (target : SynthesisTarget) (outputPath : String)
    (defines : Option (List (String × String))) (showStats : Bool)
    (circuitType : String) (t1 t2 : String) :
    (build_optimized_synthesis_script winPlatform files top target outputPath
        defines showStats circuitType t1).eraseIdx 2 =
      (build_optimized_synthesis_script winPlatform files top target outputPath
        defines showStats circuitType t2).eraseIdx 2 := rfl

/-! ## Theorems: success flag and cleanup (claims C1, C5, C9, C10) -/

/-- C1: as stated the claim fails: in `yosys_wrapper.synthesize_design`
the success flag is `returncode == 0` alone — here the tool exits 0
without producing the output artifact and the returned result still has
`success = true` (and even carries the output path). -/
theorem c1_counterexample :
    ywSuccess (synthesize_design "mux8_2to1" "out.v" true
      (RunOutcome.completed 0 "" "") false "") = some true := rfl

/-- C1 (amended): in `yo.py`'s `synthesize` the success flag is indeed
`returncode == 0` AND the output artifact exists; but in
`yosys_wrapper.synthesize_design` it is `returncode == 0` alone,
whatever the disk state — artifact existence only gates reading the
netlist back. -/
theorem c1_success_characterization (top outPath : String) (e : YoEnv) (fs0 : YoFS)
    (rc : Int) (sout serr : String) (ex : Bool) (disk : String)
    (htop : top ≠ "")
    (hff : e.findFilesOk = true)
    (hrun : e.run = RunOutcome.completed rc sout serr) :
    ((yo_synthesize top e fs0).1.success = true ↔ (rc = 0 ∧ e.toolWrites.isSome = true)) ∧
    ywSuccess (synthesize_design top outPath true (RunOutcome.completed rc sout serr) ex disk) =
      some (rc == 0) := by
  constructor
  · obtain ⟨ff, now, run, tw, pp, ro⟩ := e
    dsimp only at hff hrun ⊢
    subst hff
    subst hrun
    obtain ⟨oc, bc, bp, se⟩ := fs0
    rcases oc with _ | c <;> rcases tw with _ | w <;>
      simp [yo_synthesize] <;> split_ifs <;> simp_all
  · simp [synthesize_design, run_yosys_command, ywSuccess, htop, Except.toOption]

/-- C1 witness: a successful run with the artifact written, for both
flows. -/
theorem c1_success_characterization_witness :
    ("mux8_2to1" : String) ≠ "" ∧ envCompleted.findFilesOk = true ∧
    envCompleted.run = RunOutcome.completed 0 "ok" "" ∧
    (((yo_synthesize "mux8_2to1" envCompleted fsEmpty).1.success = true ↔
        ((0 : Int) = 0 ∧ envCompleted.toolWrites.isSome = true)) ∧
      ywSuccess (synthesize_design "mux8_2to1" "out.v" true
        (RunOutcome.completed 0 "ok" "") true "module m; endmodule") =
        some ((0 : Int) == 0)) :=
  ⟨by decide, by decide, by decide,
   c1_success_characterization "mux8_2to1" "out.v" envCompleted fsEmpty 0 "ok" ""
     true "module m; endmodule" (by decide) (by decide) (by decide)⟩

/-- C5: as stated the claim fails: in `yo.py`'s `synthesize` the
`script_file.unlink` is not in a `finally` block, so when the subprocess
times out the exception handler is reached with the scratch script still
on disk. -/
theorem c5_counterexample :
    fsEmpty.scriptExists = false ∧
    (yo_synthesize "top" envTimedOut fsEmpty).2.scriptExists = true := by
  decide

/-- C5 (amended): `yosys_wrapper._run_yosys_command` removes the scratch
script on every exit path (completion, timeout, other exception); in
`yo.py`'s `synthesize` the scratch file is removed when the subprocess
call returns (with any exit code), but not on timeout or exception. -/
theorem c5_scratch_cleanup (o : RunOutcome) (top : String) (e : YoEnv) (fs0 : YoFS)
    (rc : Int) (sout serr : String)
    (hrun : e.run = RunOutcome.completed rc sout serr)
    (hfs : fs0.scriptExists = false) :
    (run_yosys_command o).2 = false ∧
    (yo_synthesize top e fs0).2.scriptExists = false := by
  constructor
  · cases o <;> rfl
  · obtain ⟨ff, now, run, tw, pp, ro⟩ := e
    dsimp only at hrun ⊢
    subst hrun
    obtain ⟨oc, bc, bp, se⟩ := fs0
    dsimp only at hfs
    subst hfs
    rcases ff <;> rcases oc with _ | c <;> rcases tw with _ | w <;>
      simp [yo_synthesize] <;> split_ifs <;> simp

/-- C5 witness: a completed run (exit 0) leaves no scratch script in
either flow. -/
theorem c5_scratch_cleanup_witness :
    envCompleted.run = RunOutcome.completed 0 "ok" "" ∧ fsEmpty.scriptExists = false ∧
    ((run_yosys_command RunOutcome.timedOut).2 = false ∧
     (yo_synthesize "top" envCompleted fsEmpty).2.scriptExists = false) :=
  ⟨by decide, by decide,
   c5_scratch_cleanup RunOutcome.timedOut "top" envCompleted fsEmpty 0 "ok" ""
     (by decide) (by decide)⟩

/-- C9: as stated the claim fails: a postprocessing failure is an
internal exception, yet it is caught inside the success path and the
returned result still has `success = true`, stage `"completed"`. -/
theorem c9_counterexample :
    (yo_synthesize "top" envPostprocFail fsEmpty).1.success = true ∧
    (yo_synthesize "top" envPostprocFail fsEmpty).1.stage = "completed" := by
  decide

/-- C9 (amended): `yo.py`'s `synthesize` is total at its interface — it
always returns a result whose stage is one of `completed`/`failed`/
`error`, with `success` exactly on `completed`; an exception that reaches
the top-level handler (missing input files, tool timeout, launch
failure) yields `success = false` with stage `"error"`; postprocessing
failures are caught internally and still report success. -/
theorem c9_total_interface (top : String) (e : YoEnv) (fs0 : YoFS) :
    ((yo_synthesize top e fs0).1.stage = "completed" ∨
     (yo_synthesize top e fs0).1.stage = "failed" ∨
     (yo_synthesize top e fs0).1.stage = "error") ∧
    ((yo_synthesize top e fs0).1.success = true ↔
      (yo_synthesize top e fs0).1.stage = "completed") ∧
    ((e.findFilesOk = false ∨ e.run = RunOutcome.timedOut ∨ e.run = RunOutcome.raised) →
      (yo_synthesize top e fs0).1.success = false ∧
      (yo_synthesize top e fs0).1.stage = "error") := by
  obtain ⟨ff, now, run, tw, pp, ro⟩ := e
  obtain ⟨oc, bc, bp, se⟩ := fs0
  rcases ff <;> rcases run with ⟨rc, sout, serr⟩ | _ | _ <;>
    rcases oc with _ | c <;> rcases tw with _ | w <;>
      simp [yo_synthesize] <;> split_ifs <;> simp_all

/-- C9 witness: the timeout case lands in the handler with stage
`"error"` and no success. -/
theorem c9_total_interface_witness :
    ((yo_synthesize "top" envTimedOut fsEmpty).1.stage = "completed" ∨
     (yo_synthesize "top" envTimedOut fsEmpty).1.stage = "failed" ∨
     (yo_synthesize "top" envTimedOut fsEmpty).1.stage = "error") ∧
    ((yo_synthesize "top" envTimedOut fsEmpty).1.success = true ↔
      (yo_synthesize "top" envTimedOut fsEmpty).1.stage = "completed") ∧
    ((envTimedOut.findFilesOk = false ∨ envTimedOut.run = RunOutcome.timedOut ∨
        envTimedOut.run = RunOutcome.raised) →
      (yo_synthesize "top" envTimedOut fsEmpty).1.success = false ∧
      (yo_synthesize "top" envTimedOut fsEmpty).1.stage = "error") :=
  c9_total_interface "top" envTimedOut fsEmpty

/-- C10: an existing output netlist is renamed to the timestamped backup
`<top>_synthesized.backup_<time>.v` before the tool runs; on every
subsequent path its old content survives at the backup path, never
overwritten in place. -/
theorem c10_backup_preserves (top : String) (e : YoEnv) (fs0 : YoFS) (c : String)
    (hff : e.findFilesOk = true)
    (hout : fs0.outputContent = some c) :
    (yo_synthesize top e fs0).2.backupContent = some c ∧
    (yo_synthesize top e fs0).2.backupPath = some (yoBackupName top e.now) := by
  obtain ⟨ff, now, run, tw, pp, ro⟩ := e
  dsimp only at hff ⊢
  subst hff
  obtain ⟨oc, bc, bp, se⟩ := fs0
  dsimp only at hout
  subst hout
  rcases run with ⟨rc, sout, serr⟩ | _ | _ <;> rcases tw with _ | w <;>
    simp [yo_synthesize] <;> split_ifs <;> simp

/-- C10 witness: a pre-existing netlist backed up across a successful
run. -/
theorem c10_backup_preserves_witness :
    envCompleted.findFilesOk = true ∧
    fsWithOutput.outputContent = some "module old; endmodule" ∧
    ((yo_synthesize "top" envCompleted fsWithOutput).2.backupContent =
       some "module old; endmodule" ∧
     (yo_synthesize "top" envCompleted fsWithOutput).2.backupPath =
       some (yoBackupName "top" envCompleted.now)) :=
  ⟨by decide, by decide,
   c10_backup_preserves "top" envCompleted fsWithOutput "module old; endmodule"
     (by decide) (by decide)⟩
